import Mathlib

/-!
Verification of the u-blox GNSS session driver (`src/lib.rs`).

The development shallowly embeds the `Device` session state machine:
the cached receiver state, the derived-value accessors
(`get_position`, `get_velocity`, `get_solution`), the message router
(`get_next_message`) with its ALP assistance-data chunk responder, the
ack-waiting loop (`wait_for_ack`), and the state-clearing phase of
`reset`.  Wall-clock-bounded receive loops are modelled by a finite
list of receive results (one entry per receive cycle inside the
bounded window); exhausting the list models reaching the time bound.
Rust slice-indexing panics and the explicit `panic!` on a mismatched
ack are modelled as distinguished `aborted` outcomes.
-/

namespace Ublox

/-- Modelled from the spec: geodetic position packet; only `itow` is read by
the session logic (the remaining payload fields live in the `ubx_packets`
module, which is not under `src/`, and are opaque to the claims). -/
structure NavPosLLH where
  itow : Nat
  deriving DecidableEq, Repr

/-- Modelled from the spec: NED velocity packet; only `itow` is read by the
session logic. -/
structure NavVelNED where
  itow : Nat
  deriving DecidableEq, Repr

/-- Modelled from the spec: receiver status packet; the session reads `itow`
and the fix-validity `flags` byte. -/
structure NavStatus where
  itow : Nat
  flags : Nat
  deriving DecidableEq, Repr

/-- Modelled from the spec: consolidated solution packet; the session reads
`fix_type` (and `itow` tags the sample). -/
structure NavPosVelTime where
  itow : Nat
  fix_type : Nat
  deriving DecidableEq, Repr

/-- Acknowledge packet: class/id of the acknowledged message
(fields as read in `wait_for_ack`). -/
structure AckAck where
  classid : Nat
  msgid : Nat
  deriving DecidableEq, Repr

/-- Modelled from the spec: assistance-data chunk request/reply envelope;
the session reads `offset` and `size` (16-bit word counts) and writes
`file_id` and `data_size`; further envelope fields live in `ubx_packets`
(not under `src/`) and are copied through unchanged. -/
structure AlpSrv where
  offset : Nat
  size : Nat
  file_id : Nat
  data_size : Nat
  deriving DecidableEq, Repr

/-- Derived presentation-level position (`Position`), produced by `From`
conversions in the missing `ubx_packets` module; modelled from the spec as a
tag remembering which packet it was derived from. -/
inductive Position where
  | ofLLH (p : NavPosLLH)
  | ofPVT (p : NavPosVelTime)
  deriving DecidableEq, Repr

/-- Derived presentation-level velocity, as for `Position`. -/
inductive Velocity where
  | ofNED (p : NavVelNED)
  | ofPVT (p : NavPosVelTime)
  deriving DecidableEq, Repr

/-- Derived calendar time (`DateTime<Utc>` in the source), modelled from the
spec as a tag on the consolidated solution it is derived from. -/
inductive UtcTime where
  | ofPVT (p : NavPosVelTime)
  deriving DecidableEq, Repr

/-- The closed packet union produced by the segmenter/codec.  `monVer`
carries no fields here (the session only prints them); `other` is the
opaque passthrough for every remaining catalog entry. -/
inductive Packet where
  | ackAck (a : AckAck)
  | monVer
  | navPosVelTime (p : NavPosVelTime)
  | navVelNED (p : NavVelNED)
  | navStatus (p : NavStatus)
  | navPosLLH (p : NavPosLLH)
  | alpSrv (p : AlpSrv)
  | other
  deriving DecidableEq, Repr

/-- `true` exactly on `AckAck` packets. -/
def Packet.isAckAck : Packet → Bool
  | .ackAck _ => true
  | _ => false

/-- `true` exactly on `AlpSrv` packets. -/
def Packet.isAlpSrv : Packet → Bool
  | .alpSrv _ => true
  | _ => false

/-- The session state of `Device` (the transport and segmenter are external
collaborators and carry no protocol state relevant to the claims). -/
structure Device where
  alp_data : List Nat
  alp_file_id : Nat
  navpos : Option NavPosLLH
  navvel : Option NavVelNED
  navstatus : Option NavStatus
  solution : Option NavPosVelTime
  deriving DecidableEq, Repr

/-- Rust slice indexing `&v[start..stop]`: defined when
`start ≤ stop ∧ stop ≤ v.length`, otherwise it panics (`none`). -/
def sliceRange (v : List Nat) (start stop : Nat) : Option (List Nat) :=
  if start ≤ stop ∧ stop ≤ v.length then some ((v.drop start).take (stop - start))
  else none

/-- Outcome of handling one `AlpSrv` request (`get_next_message`, the
`Packet::AlpSrv` arm). -/
inductive AlpResult where
  | ignored
  | reply (env : AlpSrv) (chunk : List Nat)
  | aborted
  deriving DecidableEq, Repr

/-- The `Packet::AlpSrv(packet)` arm of `Device::get_next_message`:
if no blob is loaded the request is ignored; otherwise byte offset and size
are `request.offset * 2` and `request.size * 2`, the size is clamped
(`size = 0` when `offset > len`, else `size = len - reply.offset` — note the
source subtracts the *word* offset `reply.offset`, not the byte offset —
when `offset + size > len`), `reply.data_size` is the clamped size cast to
`u16`, and the chunk `alp_data[offset .. offset + size]` is appended; the
slice aborts when the range is out of bounds. -/
def handleAlpSrv (alp_data : List Nat) (alp_file_id : Nat) (req : AlpSrv) : AlpResult :=
  if alp_data.length = 0 then .ignored
  else
    let offset := req.offset * 2
    let size0 := req.size * 2
    let size :=
      if offset > alp_data.length then 0
      else if offset + size0 > alp_data.length then alp_data.length - req.offset
      else size0
    let reply : AlpSrv := { req with file_id := alp_file_id, data_size := size % 65536 }
    match sliceRange alp_data offset (offset + size) with
    | some chunk => .reply reply chunk
    | none => .aborted

/-- A message sent by the session while routing (only the ALP chunk reply is
sent from inside `get_next_message`); the envelope/chunk pair stands for the
serialized payload of the class `0x0B` id `0x32` reply. -/
inductive OutMsg where
  | alpReply (env : AlpSrv) (chunk : List Nat)
  deriving DecidableEq, Repr

/-- Result of one `get_next_message` call: the updated session state, the
packet passed through to the caller (if any), and the messages sent —
or an abort (the out-of-bounds ALP slice). -/
inductive GnmOut where
  | ok (d : Device) (passed : Option Packet) (sent : List OutMsg)
  | aborted
  deriving DecidableEq, Repr

/-- `Device::get_next_message`, given the packet the transport/segmenter
produced this cycle (`none` when the read timed out or the frame is still
incomplete).  Acks pass through; `MonVer` is printed and consumed; the four
navigation packets replace their cached field; `AlpSrv` is answered via
`handleAlpSrv`; everything else is printed and consumed. -/
def get_next_message (d : Device) (recv : Option Packet) : GnmOut :=
  match recv with
  | some (Packet.ackAck a) => .ok d (some (Packet.ackAck a)) []
  | some Packet.monVer => .ok d none []
  | some (Packet.navPosVelTime p) => .ok { d with solution := some p } none []
  | some (Packet.navVelNED p) => .ok { d with navvel := some p } none []
  | some (Packet.navStatus p) => .ok { d with navstatus := some p } none []
  | some (Packet.navPosLLH p) => .ok { d with navpos := some p } none []
  | some (Packet.alpSrv p) =>
    match handleAlpSrv d.alp_data d.alp_file_id p with
    | .ignored => .ok d none []
    | .reply env chunk => .ok d none [OutMsg.alpReply env chunk]
    | .aborted => .aborted
  | some Packet.other => .ok d none []
  | none => .ok d none []

/-- Outcome of `Device::wait_for_ack`: success, the `panic!` on a mismatched
ack, the `UnexpectedPacket` error, an abort inside `get_next_message`, or
the `TimedOutWaitingForAck(classid, msgid)` error. -/
inductive AckOutcome where
  | ok (d : Device)
  | wrongAckFatal
  | unexpectedPacket
  | aborted
  | timedOut (classid : Nat) (msgid : Nat)
  deriving DecidableEq, Repr

/-- `Device::wait_for_ack(classid, msgid)`: the 1-second bounded loop is
modelled by the finite list of per-cycle receive results; an empty list
means the deadline passed with no terminating packet.  A matching `AckAck`
returns success, a mismatched one hits `panic!`, any other passed-through
packet is the `UnexpectedPacket` error, and a cycle yielding no packet
continues the loop. -/
def wait_for_ack : Device → Nat → Nat → List (Option Packet) → AckOutcome
  | _, classid, msgid, [] => .timedOut classid msgid
  | d, classid, msgid, e :: rest =>
    match get_next_message d e with
    | .aborted => .aborted
    | .ok d2 passed _ =>
      match passed with
      | some (Packet.ackAck a) =>
        if a.classid ≠ classid ∨ a.msgid ≠ msgid then .wrongAckFatal
        else .ok d2
      | some _ => .unexpectedPacket
      | none => wait_for_ack d2 classid msgid rest

/-- `Device::get_position`: requires both a cached status and a cached
position, equal `itow`, and bit 0 of the status flags set. -/
def get_position (d : Device) : Option Position :=
  match d.navstatus, d.navpos with
  | some status, some pos =>
    if status.itow ≠ pos.itow then none
    else if status.flags &&& 1 = 0 then none
    else some (Position.ofLLH pos)
  | _, _ => none

/-- `Device::get_velocity`: requires both a cached status and a cached
velocity, equal `itow`, and bit 0 of the status flags set. -/
def get_velocity (d : Device) : Option Velocity :=
  match d.navstatus, d.navvel with
  | some status, some vel =>
    if status.itow ≠ vel.itow then none
    else if status.flags &&& 1 = 0 then none
    else some (Velocity.ofNED vel)
  | _, _ => none

/-- `Device::get_solution`: position/velocity are derived when `fix_type`
is `0x03` or `0x04`; calendar time when `fix_type` is `0x03`, `0x04`
or `0x05`; all absent when no solution is cached. -/
def get_solution (d : Device) : Option Position × Option Velocity × Option UtcTime :=
  match d.solution with
  | some sol =>
    let has_time := sol.fix_type = 0x03 ∨ sol.fix_type = 0x04 ∨ sol.fix_type = 0x05
    let has_posvel := sol.fix_type = 0x03 ∨ sol.fix_type = 0x04
    (if has_posvel then some (Position.ofPVT sol) else none,
     if has_posvel then some (Velocity.ofPVT sol) else none,
     if has_time then some (UtcTime.ofPVT sol) else none)
  | none => (none, none, none)

/-- The reset type selector (`ResetType`). -/
inductive ResetType where
  | Hot
  | Warm
  | Cold
  deriving DecidableEq, Repr

/-- The `CfgRst` message variants (`CfgRst::HOT` / `WARM` / `COLD`; the
constants' payload bytes live in `ubx_packets`, not under `src/`). -/
inductive CfgRst where
  | HOT
  | WARM
  | COLD
  deriving DecidableEq, Repr

/-- The send-and-clear phase of `Device::reset` (everything before the
500 ms drain loop and the `init_protocol` re-run, which only perform
transport I/O): the `CfgRst` variant sent for the chosen reset type,
paired with the session state after clearing `navpos` and `navstatus`. -/
def reset_send_and_clear (d : Device) : ResetType → CfgRst × Device
  | .Hot => (CfgRst.HOT, { d with navpos := none, navstatus := none })
  | .Warm => (CfgRst.WARM, { d with navpos := none, navstatus := none })
  | .Cold => (CfgRst.COLD, { d with navpos := none, navstatus := none })

/-- A fresh session with no cached packets and no assistance blob. -/
def d0 : Device :=
  { alp_data := [], alp_file_id := 0,
    navpos := none, navvel := none, navstatus := none, solution := none }

/-- A session holding a 100-byte assistance blob (bytes `0,…,99`). -/
def dBlob100 : Device :=
  { d0 with alp_data := List.range 100, alp_file_id := 0x1234 }

end Ublox

namespace Ublox

/-- C1: For a 100-byte blob, the chunk request with offset(words)=40 and
size(words)=40 (byte offset 80, byte size 80, 20 bytes remaining) does not
produce the claimed reply with `data_size = 20` carrying `data[80..100]`:
the source truncates `size` to `alp_data.len() - reply.offset` using the
*word* offset (giving 60) and the slice `alp_data[80..140]` is out of
bounds, so handling the request aborts. -/
theorem c1_alp_truncation_aborts :
    handleAlpSrv dBlob100.alp_data dBlob100.alp_file_id
      { offset := 40, size := 40, file_id := 0, data_size := 0 } = AlpResult.aborted ∧
    handleAlpSrv dBlob100.alp_data dBlob100.alp_file_id
      { offset := 40, size := 40, file_id := 0, data_size := 0 } ≠
      AlpResult.reply
        { offset := 40, size := 40, file_id := 0x1234, data_size := 20 }
        ((List.range 100).drop 80) := by
  constructor
  · rfl
  · decide

/-- C2: For a 100-byte blob, the chunk request with offset(words)=60 and
size(words)=40 (byte offset 120 > 100) does not produce the claimed
zero-length-data reply: the source does set `size = 0` and
`data_size = 0`, but then evaluates `alp_data[120..120]`, whose start
exceeds the blob length, so handling the request aborts before any reply
is sent. -/
theorem c2_alp_zero_length_aborts :
    handleAlpSrv dBlob100.alp_data dBlob100.alp_file_id
      { offset := 60, size := 40, file_id := 0, data_size := 0 } = AlpResult.aborted ∧
    handleAlpSrv dBlob100.alp_data dBlob100.alp_file_id
      { offset := 60, size := 40, file_id := 0, data_size := 0 } ≠
      AlpResult.reply
        { offset := 60, size := 40, file_id := 0x1234, data_size := 0 } [] := by
  constructor
  · rfl
  · decide

/-- C3: Handling an `AlpSrv` request with a non-empty loaded blob is not
abort-free for all request offsets and sizes: with the 100-byte blob, a
request with offset(words)=10 and size(words)=60 reaches the truncation
branch (clamped size `100 - 10 = 90`), and the slice `alp_data[20..110]`
is out of bounds, aborting the program. -/
theorem c3_alp_request_can_abort :
    dBlob100.alp_data.length ≠ 0 ∧
    handleAlpSrv dBlob100.alp_data dBlob100.alp_file_id
      { offset := 10, size := 60, file_id := 0, data_size := 0 } = AlpResult.aborted := by
  constructor
  · decide
  · rfl

/-- C4: `get_position` (resp. `get_velocity`) returns a value iff a status
and a position (resp. velocity) are both cached, their `itow` fields are
exactly equal, and bit 0 of the status flags is set; concretely, with
status `itow=1000, flags=1`: position `itow=1000` gives `some`, position
`itow=1001` gives `none`, and `flags=0` with matching `itow` gives
`none`. -/
theorem c4_itow_flag_gating :
    (∀ d : Device, (get_position d).isSome = true ↔
      ∃ s p, d.navstatus = some s ∧ d.navpos = some p ∧
        s.itow = p.itow ∧ s.flags &&& 1 ≠ 0) ∧
    (∀ d : Device, (get_velocity d).isSome = true ↔
      ∃ s v, d.navstatus = some s ∧ d.navvel = some v ∧
        s.itow = v.itow ∧ s.flags &&& 1 ≠ 0) ∧
    get_position { d0 with navstatus := some ⟨1000, 1⟩, navpos := some ⟨1000⟩ }
      = some (Position.ofLLH ⟨1000⟩) ∧
    get_position { d0 with navstatus := some ⟨1000, 1⟩, navpos := some ⟨1001⟩ } = none ∧
    get_position { d0 with navstatus := some ⟨1000, 0⟩, navpos := some ⟨1000⟩ } = none := by
  refine ⟨?_, ?_, by decide, by decide, by decide⟩
  · intro d
    constructor
    · intro h
      match hs : d.navstatus, hp : d.navpos with
      | some s, some p =>
        simp only [get_position, hs, hp] at h
        split_ifs at h with h1 h2
        · simp at h
        · simp at h
        · exact ⟨s, p, rfl, rfl, by omega, h2⟩
      | some s, none => simp [get_position, hs, hp] at h
      | none, some p => simp [get_position, hs, hp] at h
      | none, none => simp [get_position, hs, hp] at h
    · rintro ⟨s, p, hs, hp, hitow, hflag⟩
      have hm := Nat.and_one_is_mod s.flags
      have hflag2 : s.flags % 2 = 1 := by omega
      simp [get_position, hs, hp, hitow, hflag2]
  · intro d
    constructor
    · intro h
      match hs : d.navstatus, hp : d.navvel with
      | some s, some v =>
        simp only [get_velocity, hs, hp] at h
        split_ifs at h with h1 h2
        · simp at h
        · simp at h
        · exact ⟨s, v, rfl, rfl, by omega, h2⟩
      | some s, none => simp [get_velocity, hs, hp] at h
      | none, some v => simp [get_velocity, hs, hp] at h
      | none, none => simp [get_velocity, hs, hp] at h
    · rintro ⟨s, v, hs, hp, hitow, hflag⟩
      have hm := Nat.and_one_is_mod s.flags
      have hflag2 : s.flags % 2 = 1 := by omega
      simp [get_velocity, hs, hp, hitow, hflag2]

end Ublox

namespace Ublox

/-- C5: A received `AckAck` matching the awaited class/id makes
`wait_for_ack` return success immediately, while an `AckAck` for a
different class/id hits the fatal `panic!` (never silently ignored, never
success); concretely an `AckAck` for (0x06, 0x01) satisfies a wait for
(0x06, 0x01) and is fatal against a wait for (0x06, 0x00). -/
theorem c5_ack_matching :
    (∀ (d : Device) (c m : Nat) (a : AckAck) (rest : List (Option Packet)),
      a.classid = c → a.msgid = m →
      wait_for_ack d c m (some (Packet.ackAck a) :: rest) = AckOutcome.ok d) ∧
    (∀ (d : Device) (c m : Nat) (a : AckAck) (rest : List (Option Packet)),
      (a.classid ≠ c ∨ a.msgid ≠ m) →
      wait_for_ack d c m (some (Packet.ackAck a) :: rest) = AckOutcome.wrongAckFatal) ∧
    wait_for_ack d0 0x06 0x01 [some (Packet.ackAck ⟨0x06, 0x01⟩)] = AckOutcome.ok d0 ∧
    wait_for_ack d0 0x06 0x00 [some (Packet.ackAck ⟨0x06, 0x01⟩)] =
      AckOutcome.wrongAckFatal := by
  refine ⟨?_, ?_, by decide, by decide⟩
  · intro d c m a rest h1 h2
    simp [wait_for_ack, get_next_message, h1, h2]
  · intro d c m a rest h
    rcases h with h | h <;> simp [wait_for_ack, get_next_message, h]

/-- C5 witness: the universally quantified parts of `c5_ack_matching`
applied at the concrete (0x06, 0x01) / (0x06, 0x00) instances. -/
theorem c5_ack_matching_witness :
    wait_for_ack dBlob100 0x06 0x01 [some (Packet.ackAck ⟨0x06, 0x01⟩), none] =
      AckOutcome.ok dBlob100 ∧
    wait_for_ack dBlob100 0x06 0x00 [some (Packet.ackAck ⟨0x06, 0x01⟩), none] =
      AckOutcome.wrongAckFatal :=
  ⟨c5_ack_matching.1 dBlob100 0x06 0x01 ⟨0x06, 0x01⟩ [none] rfl rfl,
   c5_ack_matching.2.1 dBlob100 0x06 0x00 ⟨0x06, 0x01⟩ [none] (Or.inr (by decide))⟩

/-- C6 counterexample: a `MonVer` packet received while waiting for the
(0x06, 0x00) ack does not terminate the wait with the unexpected-packet
error — `get_next_message` consumes it and the loop runs on to the
timeout. -/
theorem c6_counterexample :
    wait_for_ack d0 0x06 0x00 [some Packet.monVer] = AckOutcome.timedOut 0x06 0x00 ∧
    wait_for_ack d0 0x06 0x00 [some Packet.monVer] ≠ AckOutcome.unexpectedPacket := by
  decide

/-- C6 (amended): during `wait_for_ack`, a received packet of any type
other than `AckAck` never surfaces the unexpected-packet error: it is
consumed inside `get_next_message` (cached, reported, or answered),
yielding no passed-through packet, and the wait loop continues — unless
handling it aborts the program, as an out-of-range `AlpSrv` request does.
The unexpected-packet error is reserved for passed-through non-ack
packets, which `get_next_message` never produces. -/
theorem c6_nonack_continues :
    ∀ (d : Device) (p : Packet), p.isAckAck = false →
    ∀ (c m : Nat) (rest : List (Option Packet)),
      (∃ d2 sent, get_next_message d (some p) = GnmOut.ok d2 none sent ∧
        wait_for_ack d c m (some p :: rest) = wait_for_ack d2 c m rest) ∨
      (get_next_message d (some p) = GnmOut.aborted ∧
        wait_for_ack d c m (some p :: rest) = AckOutcome.aborted) := by
  intro d p hp c m rest
  cases p with
  | ackAck a => simp [Packet.isAckAck] at hp
  | monVer => exact Or.inl ⟨d, [], rfl, rfl⟩
  | navPosVelTime q => exact Or.inl ⟨{ d with solution := some q }, [], rfl, rfl⟩
  | navVelNED q => exact Or.inl ⟨{ d with navvel := some q }, [], rfl, rfl⟩
  | navStatus q => exact Or.inl ⟨{ d with navstatus := some q }, [], rfl, rfl⟩
  | navPosLLH q => exact Or.inl ⟨{ d with navpos := some q }, [], rfl, rfl⟩
  | other => exact Or.inl ⟨d, [], rfl, rfl⟩
  | alpSrv q =>
    cases halp : handleAlpSrv d.alp_data d.alp_file_id q with
    | ignored =>
      refine Or.inl ⟨d, [], ?_, ?_⟩ <;> simp [get_next_message, wait_for_ack, halp]
    | reply env chunk =>
      refine Or.inl ⟨d, [OutMsg.alpReply env chunk], ?_, ?_⟩ <;>
        simp [get_next_message, wait_for_ack, halp]
    | aborted =>
      refine Or.inr ⟨?_, ?_⟩ <;> simp [get_next_message, wait_for_ack, halp]

/-- C6 witness: `c6_nonack_continues` applied to a concrete `MonVer`
packet received while waiting for the (0x06, 0x00) ack. -/
theorem c6_nonack_continues_witness :
    Packet.monVer.isAckAck = false ∧
    ((∃ d2 sent, get_next_message d0 (some Packet.monVer) = GnmOut.ok d2 none sent ∧
        wait_for_ack d0 0x06 0x00 [some Packet.monVer, none] =
          wait_for_ack d2 0x06 0x00 [none]) ∨
      (get_next_message d0 (some Packet.monVer) = GnmOut.aborted ∧
        wait_for_ack d0 0x06 0x00 [some Packet.monVer, none] = AckOutcome.aborted)) :=
  ⟨rfl, c6_nonack_continues d0 Packet.monVer rfl 0x06 0x00 [none]⟩

/-- C7: when every receive cycle within the bounded window yields no
terminating packet (no packet at all, or a consumed non-ack non-`AlpSrv`
packet), `wait_for_ack` returns the timeout error carrying the awaited
class and id, rather than blocking. -/
theorem c7_timeout :
    ∀ (events : List (Option Packet)) (d : Device) (c m : Nat),
      (∀ e ∈ events, e = none ∨
        ∃ p, e = some p ∧ p.isAckAck = false ∧ p.isAlpSrv = false) →
      wait_for_ack d c m events = AckOutcome.timedOut c m := by
  intro events
  induction events with
  | nil => intro d c m _; rfl
  | cons e rest ih =>
    intro d c m h
    have he := h e (List.mem_cons_self e rest)
    have hrest : ∀ x ∈ rest, x = none ∨
        ∃ p, x = some p ∧ p.isAckAck = false ∧ p.isAlpSrv = false :=
      fun x hx => h x (List.mem_cons_of_mem e hx)
    rcases he with rfl | ⟨p, rfl, hack, halp⟩
    · simpa [wait_for_ack, get_next_message] using ih d c m hrest
    · cases p with
      | ackAck a => simp [Packet.isAckAck] at hack
      | alpSrv q => simp [Packet.isAlpSrv] at halp
      | monVer => simpa [wait_for_ack, get_next_message] using ih d c m hrest
      | navPosVelTime q =>
        simpa [wait_for_ack, get_next_message] using ih _ c m hrest
      | navVelNED q => simpa [wait_for_ack, get_next_message] using ih _ c m hrest
      | navStatus q => simpa [wait_for_ack, get_next_message] using ih _ c m hrest
      | navPosLLH q => simpa [wait_for_ack, get_next_message] using ih _ c m hrest
      | other => simpa [wait_for_ack, get_next_message] using ih d c m hrest

/-- C7 witness: a window of two silent cycles and a consumed `MonVer`
yields the timeout error for the awaited (0x06, 0x01). -/
theorem c7_timeout_witness :
    wait_for_ack d0 0x06 0x01 [none, some Packet.monVer, none] =
      AckOutcome.timedOut 0x06 0x01 :=
  c7_timeout [none, some Packet.monVer, none] d0 0x06 0x01 (by
    intro e he
    simp only [List.mem_cons, List.not_mem_nil, or_false] at he
    rcases he with rfl | rfl | rfl
    · exact Or.inl rfl
    · exact Or.inr ⟨Packet.monVer, rfl, rfl, rfl⟩
    · exact Or.inl rfl)

/-- C8: `get_solution` is derived solely from the cached `NavPosVelTime`:
position and velocity are present exactly when `fix_type` is 0x03 or 0x04,
calendar time exactly when `fix_type` is 0x03, 0x04 or 0x05, and all three
outputs are absent when no solution is cached. -/
theorem c8_solution_gating :
    (∀ (d : Device) (sol : NavPosVelTime), d.solution = some sol →
      ((get_solution d).1.isSome = true ↔
        (sol.fix_type = 0x03 ∨ sol.fix_type = 0x04)) ∧
      ((get_solution d).2.1.isSome = true ↔
        (sol.fix_type = 0x03 ∨ sol.fix_type = 0x04)) ∧
      ((get_solution d).2.2.isSome = true ↔
        (sol.fix_type = 0x03 ∨ sol.fix_type = 0x04 ∨ sol.fix_type = 0x05))) ∧
    (∀ d : Device, d.solution = none → get_solution d = (none, none, none)) := by
  constructor
  · intro d sol hs
    refine ⟨?_, ?_, ?_⟩ <;> simp only [get_solution, hs] <;> split <;> simp_all
  · intro d hs
    simp [get_solution, hs]

/-- C8 witness: `c8_solution_gating` applied to a cached solution with
`fix_type = 0x03` and to the empty session. -/
theorem c8_solution_gating_witness :
    (get_solution { d0 with solution := some ⟨5000, 0x03⟩ }).1.isSome = true ∧
    get_solution d0 = (none, none, none) :=
  ⟨((c8_solution_gating.1 { d0 with solution := some ⟨5000, 0x03⟩ }
      ⟨5000, 0x03⟩ rfl).1).mpr (Or.inl rfl),
   c8_solution_gating.2 d0 rfl⟩

/-- C9: each inbound `NavPosVelTime`/`NavVelNED`/`NavStatus`/`NavPosLLH`
packet fully replaces exactly its own cached field, leaves every other
session state field unchanged, sends nothing, and is not passed through to
the caller. -/
theorem c9_cache_replacement :
    ∀ (d : Device) (p1 : NavPosVelTime) (p2 : NavVelNED) (p3 : NavStatus)
      (p4 : NavPosLLH),
      (∃ d1, get_next_message d (some (Packet.navPosVelTime p1)) =
          GnmOut.ok d1 none [] ∧
        d1.solution = some p1 ∧ d1.navpos = d.navpos ∧ d1.navvel = d.navvel ∧
        d1.navstatus = d.navstatus ∧ d1.alp_data = d.alp_data ∧
        d1.alp_file_id = d.alp_file_id) ∧
      (∃ d2, get_next_message d (some (Packet.navVelNED p2)) =
          GnmOut.ok d2 none [] ∧
        d2.navvel = some p2 ∧ d2.navpos = d.navpos ∧ d2.navstatus = d.navstatus ∧
        d2.solution = d.solution ∧ d2.alp_data = d.alp_data ∧
        d2.alp_file_id = d.alp_file_id) ∧
      (∃ d3, get_next_message d (some (Packet.navStatus p3)) =
          GnmOut.ok d3 none [] ∧
        d3.navstatus = some p3 ∧ d3.navpos = d.navpos ∧ d3.navvel = d.navvel ∧
        d3.solution = d.solution ∧ d3.alp_data = d.alp_data ∧
        d3.alp_file_id = d.alp_file_id) ∧
      (∃ d4, get_next_message d (some (Packet.navPosLLH p4)) =
          GnmOut.ok d4 none [] ∧
        d4.navpos = some p4 ∧ d4.navvel = d.navvel ∧ d4.navstatus = d.navstatus ∧
        d4.solution = d.solution ∧ d4.alp_data = d.alp_data ∧
        d4.alp_file_id = d.alp_file_id) :=
  fun d p1 p2 p3 p4 =>
    ⟨⟨{ d with solution := some p1 }, rfl, rfl, rfl, rfl, rfl, rfl, rfl⟩,
     ⟨{ d with navvel := some p2 }, rfl, rfl, rfl, rfl, rfl, rfl, rfl⟩,
     ⟨{ d with navstatus := some p3 }, rfl, rfl, rfl, rfl, rfl, rfl, rfl⟩,
     ⟨{ d with navpos := some p4 }, rfl, rfl, rfl, rfl, rfl, rfl, rfl⟩⟩

/-- C9 witness: `c9_cache_replacement` instantiated on the blob-loaded
session with concrete packets. -/
theorem c9_cache_replacement_witness :
    ∃ d3, get_next_message dBlob100 (some (Packet.navStatus ⟨1000, 1⟩)) =
        GnmOut.ok d3 none [] ∧
      d3.navstatus = some ⟨1000, 1⟩ ∧ d3.navpos = dBlob100.navpos ∧
      d3.navvel = dBlob100.navvel ∧ d3.solution = dBlob100.solution ∧
      d3.alp_data = dBlob100.alp_data ∧ d3.alp_file_id = dBlob100.alp_file_id :=
  (c9_cache_replacement dBlob100 ⟨0, 0⟩ ⟨0⟩ ⟨1000, 1⟩ ⟨0⟩).2.2.1

/-- C10: for each reset kind, the send-and-clear phase of `reset` emits the
matching `CfgRst` variant and clears exactly the cached position and
status, leaving the cached velocity, the cached solution, the assistance
blob and its file id unchanged. -/
theorem c10_reset_clears :
    ∀ d : Device,
      (reset_send_and_clear d ResetType.Hot).1 = CfgRst.HOT ∧
      (reset_send_and_clear d ResetType.Warm).1 = CfgRst.WARM ∧
      (reset_send_and_clear d ResetType.Cold).1 = CfgRst.COLD ∧
      ∀ t : ResetType,
        (reset_send_and_clear d t).2.navpos = none ∧
        (reset_send_and_clear d t).2.navstatus = none ∧
        (reset_send_and_clear d t).2.navvel = d.navvel ∧
        (reset_send_and_clear d t).2.solution = d.solution ∧
        (reset_send_and_clear d t).2.alp_data = d.alp_data ∧
        (reset_send_and_clear d t).2.alp_file_id = d.alp_file_id := by
  intro d
  refine ⟨rfl, rfl, rfl, ?_⟩
  intro t
  cases t <;> exact ⟨rfl, rfl, rfl, rfl, rfl, rfl⟩

/-- C10 witness: `c10_reset_clears` instantiated on the blob-loaded
session, checking the cold-reset clearing step. -/
theorem c10_reset_clears_witness :
    (reset_send_and_clear dBlob100 ResetType.Cold).1 = CfgRst.COLD ∧
    (reset_send_and_clear dBlob100 ResetType.Cold).2.navpos = none ∧
    (reset_send_and_clear dBlob100 ResetType.Cold).2.alp_data = dBlob100.alp_data :=
  ⟨(c10_reset_clears dBlob100).2.2.1,
   ((c10_reset_clears dBlob100).2.2.2 ResetType.Cold).1,
   ((c10_reset_clears dBlob100).2.2.2 ResetType.Cold).2.2.2.2.1⟩

end Ublox
